import Mathlib

/-!
Shallow embedding of the cross-chain bridge event listener (script.py) and the
INI configuration loader (loader.py).

Python integers are modelled by Int (block numbers can be negative after the
subtractions the code performs), uint256 event arguments by Nat, and Python
truthiness is made explicit for each value type.  Network effects are passed
in as explicit inputs: the chain heights observed by the two
get_latest_block_number calls of a cycle, the outcome of the log fetch, and
the price oracle response.  Exceptions are modelled by Except values; the
polling cycle itself is a total function, mirroring the fact that
_poll_and_process_events catches every exception it can raise.
-/

deriving instance DecidableEq for Except

namespace BridgeSim

/-- Python truthiness of a string: falsy iff empty. -/
def truthyStr (s : String) : Bool := !(s == "")

/-- Python truthiness of a Nat-valued field: falsy iff zero. -/
def truthyNat (n : Nat) : Bool := !(n == 0)

/-- Python truthiness of an Int-valued field: falsy iff zero. -/
def truthyInt (i : Int) : Bool := !(i == 0)

/-- Truthiness of an optional string (None and the empty string are falsy). -/
def truthyOptStr : Option String → Bool
  | none => false
  | some s => truthyStr s

/-- Truthiness of an optional Nat (None and 0 are falsy). -/
def truthyOptNat : Option Nat → Bool
  | none => false
  | some n => truthyNat n

/-- Truthiness of an optional Int (None and 0 are falsy); used for the
checkpoint attribute _last_processed_block. -/
def truthyOptInt : Option Int → Bool
  | none => false
  | some i => truthyInt i

/-- Truthiness of an optional rational (None and 0 are falsy); used for the
price returned by the oracle. -/
def truthyOptRat : Option Rat → Bool
  | none => false
  | some q => !(q == 0)

/-- A raw event log as delivered by the ledger client: block number,
transaction hash, log index, and the named arguments of the TokensLocked
event.  Arguments absent from the log are None. -/
structure RawEvent where
  transactionHash : String
  logIndex : Nat
  blockNumber : Int
  sender : Option String
  recipient : Option String
  token : Option String
  amount : Option Nat
  destinationChainId : Option Nat
  nonce : Option Nat
deriving Repr, DecidableEq

/-- The processed_data dictionary built by EventProcessor.process_event,
including the optional enrichment field added in step 4. -/
structure ProcessedEvent where
  tx_hash : String
  log_index : Nat
  block_number : Int
  sender : Option String
  recipient : Option String
  token_address : Option String
  amount : Option Nat
  destination_chain_id : Option Nat
  nonce : Option Nat
  amount_usd_estimate : Option Rat
deriving Repr, DecidableEq

/-- The dedup key string built by the code: f-string tx_hash dash log_index. -/
def eventId (tx_hash : String) (log_index : Nat) : String :=
  tx_hash ++ "-" ++ toString log_index

/-- StateManager.is_processed on the in-memory set, modelled as a list of
keys with membership semantics. -/
def is_processed (keys : List String) (k : String) : Bool :=
  keys.contains k

/-- StateManager.mark_as_processed: add the key to the set. -/
def mark_as_processed (keys : List String) (k : String) : List String :=
  k :: keys

/-- The processed_data dictionary as first assembled in step 2 of
process_event, before enrichment. -/
def buildProcessedData (e : RawEvent) : ProcessedEvent :=
  { tx_hash := e.transactionHash
    log_index := e.logIndex
    block_number := e.blockNumber
    sender := e.sender
    recipient := e.recipient
    token_address := e.token
    amount := e.amount
    destination_chain_id := e.destinationChainId
    nonce := e.nonce
    amount_usd_estimate := none }

/-- Truthiness of the six required named arguments of the event. -/
def requiredArgsTruthy (pd : ProcessedEvent) : Bool :=
  truthyOptStr pd.sender && truthyOptStr pd.recipient &&
  truthyOptStr pd.token_address && truthyOptNat pd.amount &&
  truthyOptNat pd.destination_chain_id && truthyOptNat pd.nonce

/-- The validation check of step 3: all(processed_data.values()) ranges over
every value of the dictionary, so it also demands a truthy tx_hash, a nonzero
log_index and a nonzero block_number, besides the six named arguments. -/
def allValuesTruthy (pd : ProcessedEvent) : Bool :=
  truthyStr pd.tx_hash && truthyNat pd.log_index && truthyInt pd.block_number &&
  requiredArgsTruthy pd

/-- The oracle input: what _get_token_price_usd would return for a given
token address (None models both a request failure and an absent key, exactly
the two ways the code produces None). -/
abbrev Oracle := Option String → Option Rat

/-- The error escaping EventProcessor.process_event.  In the code every
exception raised inside the method body, including the InvalidEventError of
the validation step, is caught by the blanket except clause and re-raised as
EventProcessingError; the flag records whether the wrapped cause was the
InvalidEventError of step 3 (the information the wrapped message carries). -/
inductive ProcErr where
  | eventProcessingError (causedByInvalidEvent : Bool)
deriving Repr, DecidableEq

/-- EventProcessor.process_event: replay-protection check, dictionary
assembly, validation, enrichment.  Returns ok none when the event was
already processed, ok (some pd) on success, and an error otherwise. -/
def process_event (oracle : Oracle) (keys : List String) (e : RawEvent) :
    Except ProcErr (Option ProcessedEvent) :=
  let tx_hash := e.transactionHash
  let log_index := e.logIndex
  if is_processed keys (eventId tx_hash log_index) then
    Except.ok none
  else
    let pd := buildProcessedData e
    if !(allValuesTruthy pd) then
      Except.error (ProcErr.eventProcessingError true)
    else
      let price_usd := oracle pd.token_address
      if truthyOptRat price_usd then
        Except.ok (some { pd with
          amount_usd_estimate :=
            some ((((pd.amount.getD 0 : Nat) : Rat) / ((10 : Rat) ^ 18)) *
              (price_usd.getD 0)) })
      else
        Except.ok (some pd)

/-- Mutable state of CrossChainBridgeEventListener relevant to the claims:
the checkpoint _last_processed_block and the StateManager key set. -/
structure ListenerState where
  lastProcessedBlock : Option Int
  processedKeys : List String
deriving Repr, DecidableEq

/-- The strict lexicographic order on (blockNumber, logIndex) used as the
sort key lambda of the batch loop. -/
def evKeyLT (a b : RawEvent) : Bool :=
  decide (a.blockNumber < b.blockNumber) ||
    (decide (a.blockNumber = b.blockNumber) && decide (a.logIndex < b.logIndex))

/-- Stable insertion of an event into an already sorted list: the new event
goes after every strictly smaller element and before equal-keyed ones that
occurred later in the input, matching the stability of Python sorted. -/
def insertSorted (e : RawEvent) : List RawEvent → List RawEvent
  | [] => [e]
  | x :: xs => if evKeyLT x e then x :: insertSorted e xs else e :: x :: xs

/-- Model of sorted(raw_events, key) with the (blockNumber, logIndex) key:
a stable sort, realised as stable insertion sort, which agrees with every
stable sort on every input. -/
def sortEvents : List RawEvent → List RawEvent
  | [] => []
  | e :: rest => insertSorted e (sortEvents rest)

/-- The body of the for loop of _poll_and_process_events over the sorted
events: process each event; on success dispatch it to
simulate_destination_chain_action and mark its key processed; an
InvalidEventError or EventProcessingError is caught and the loop continues.
Returns the final state together with the list of dispatched events in
dispatch order. -/
def processBatch (oracle : Oracle) (st : ListenerState) :
    List RawEvent → ListenerState × List ProcessedEvent
  | [] => (st, [])
  | e :: rest =>
    match process_event oracle st.processedKeys e with
    | Except.ok (some pe) =>
      let st' : ListenerState :=
        { st with processedKeys :=
            mark_as_processed st.processedKeys (eventId pe.tx_hash pe.log_index) }
      let r := processBatch oracle st' rest
      (r.1, pe :: r.2)
    | Except.ok none => processBatch oracle st rest
    | Except.error _ => processBatch oracle st rest

/-- Outcome of the create_filter plus get_all_entries call inside
BlockchainConnector.get_events: success with entries, a BlockNotFound raised
during a reorg, or any other exception. -/
inductive FetchOutcome where
  | ok (entries : List RawEvent)
  | blockNotFound
  | otherError (msg : String)
deriving Repr, DecidableEq

/-- BlockchainConnector.get_events: returns the entries on success and
swallows both BlockNotFound and any other exception into an empty list. -/
def get_events : FetchOutcome → List RawEvent
  | FetchOutcome.ok entries => entries
  | FetchOutcome.blockNotFound => []
  | FetchOutcome.otherError _ => []

/-- CrossChainBridgeEventListener._get_start_block.  The checkpoint test is
the Python truthiness test of _last_processed_block, so a checkpoint of 0 is
treated like None.  h1 is the height returned by the
get_latest_block_number call of the cold-start branch; None models an
RPCConnectionError there, turned into the sentinel -1. -/
def get_start_block (last : Option Int) (h1 : Option Int)
    (confirmations : Int) : Int :=
  if truthyOptInt last then
    last.getD 0 + 1
  else
    match h1 with
    | some h => h - confirmations - 10
    | none => -1

/-- Result of one call to _poll_and_process_events: the new listener state,
the events dispatched to simulate_destination_chain_action in order, and the
block range actually passed to get_events (None when no fetch happened). -/
structure CycleResult where
  state : ListenerState
  dispatched : List ProcessedEvent
  fetchedRange : Option (Int × Int)
deriving Repr, DecidableEq

/-- CrossChainBridgeEventListener._poll_and_process_events as a total
function over the cycle inputs: h1 and h2 are the heights observed by the
two get_latest_block_number calls (None for an RPCConnectionError, which the
code catches, so no exception escapes), fetch gives the outcome of
get_events for the requested range, and oracle the price responses.  The
checkpoint is assigned latest_confirmed_block after every completed scan,
including one whose fetch swallowed an error into an empty list. -/
def poll_and_process_events (confirmations : Int) (oracle : Oracle)
    (h1 h2 : Option Int) (fetch : Int → Int → FetchOutcome)
    (st : ListenerState) : CycleResult :=
  let start_block := get_start_block st.lastProcessedBlock h1 confirmations
  if start_block = -1 then
    { state := st, dispatched := [], fetchedRange := none }
  else
    match h2 with
    | none => { state := st, dispatched := [], fetchedRange := none }
    | some h =>
      let latest_confirmed_block := h - confirmations
      if start_block > latest_confirmed_block then
        { state := st, dispatched := [], fetchedRange := none }
      else
        let raw_events := get_events (fetch start_block latest_confirmed_block)
        let r := processBatch oracle st (sortEvents raw_events)
        { state := { r.1 with lastProcessedBlock := some latest_confirmed_block }
          dispatched := r.2
          fetchedRange := some (start_block, latest_confirmed_block) }

/-- The (blockNumber, logIndex) pair of a dispatched event. -/
def pairKeyP (pe : ProcessedEvent) : Int × Nat := (pe.block_number, pe.log_index)

/-- The (blockNumber, logIndex) pair of a raw event. -/
def pairKeyR (e : RawEvent) : Int × Nat := (e.blockNumber, e.logIndex)

/-- Non-strict lexicographic order on (blockNumber, logIndex) pairs. -/
def keyLE (a b : Int × Nat) : Prop :=
  a.1 < b.1 ∨ (a.1 = b.1 ∧ a.2 ≤ b.2)

/-- Number of dispatched events carrying a given dedup key. -/
def countKey (k : String) (l : List ProcessedEvent) : Nat :=
  (l.filter (fun pe => eventId pe.tx_hash pe.log_index == k)).length

/-- An oracle whose every request fails (the code maps request failures to
None); used by concrete instances. -/
def oracleNone : Oracle := fun _ => none

/-- A fetch whose create_filter call raises BlockNotFound for every range;
used by concrete instances. -/
def fetchBlockNotFound : Int → Int → FetchOutcome := fun _ _ =>
  FetchOutcome.blockNotFound

/-- A fetch returning no entries for every range; used by concrete
instances. -/
def fetchEmpty : Int → Int → FetchOutcome := fun _ _ => FetchOutcome.ok []

/-- A fully populated TokensLocked event with all six named arguments
present and nonzero. -/
def sampleEvent (tx : String) (li : Nat) (bn : Int) : RawEvent :=
  { transactionHash := tx
    logIndex := li
    blockNumber := bn
    sender := some "0x1111"
    recipient := some "0x2222"
    token := some "0x3333"
    amount := some 1000
    destinationChainId := some 5
    nonce := some 42 }

/-- A sample event lacking the recipient argument. -/
def sampleMissingRecipient : RawEvent :=
  { sampleEvent "0xdead" 1 9 with recipient := none }

/-- A fetch delivering the three events of the ordering example of the
specification: (block 10, log 2), (block 9, log 0), (block 10, log 0), each
with every named argument present and nonzero. -/
def fetchOrderingExample : Int → Int → FetchOutcome := fun _ _ =>
  FetchOutcome.ok
    [sampleEvent "0xaaa" 2 10, sampleEvent "0xbbb" 0 9, sampleEvent "0xccc" 0 10]

end BridgeSim

namespace IniLoader

/-- A configuration value after the automatic type conversion of
load_ini_config.  F is the carrier of Python floats; the embedding is
parametric in it and in the two numeric parse functions, whose exact
semantics belong to the Python runtime. -/
inductive ConfigValue (F : Type) where
  | boolV (b : Bool)
  | intV (n : Int)
  | floatV (x : F)
  | strV (s : String)
deriving Repr, DecidableEq

/-- The two failure modes turned into ConfigError by load_ini_config: the
path is not an existing file, or configparser raised while parsing. -/
inductive ConfigError where
  | fileNotFound
  | parseFailure
deriving Repr, DecidableEq

/-- Python str.lower restricted to the ASCII range, which is all the
comparisons of load_ini_config use. -/
def pyLower (s : String) : String := String.mk (s.data.map Char.toLower)

/-- The per-value conversion of load_ini_config: truthy boolean words,
falsy boolean words, then int, then float, then the raw string.  pint and
pfloat stand for the Python int and float constructors applied to a string,
returning None exactly when those raise ValueError. -/
def convertValue {F : Type} (pint : String → Option Int)
    (pfloat : String → Option F) (value : String) : ConfigValue F :=
  if pyLower value == "true" || pyLower value == "yes" || pyLower value == "on" then
    ConfigValue.boolV true
  else if pyLower value == "false" || pyLower value == "no" || pyLower value == "off" then
    ConfigValue.boolV false
  else
    match pint value with
    | some n => ConfigValue.intV n
    | none =>
      match pfloat value with
      | some x => ConfigValue.floatV x
      | none => ConfigValue.strV value

/-- The interpolation failures the default BasicInterpolation of
ConfigParser can raise while config.items reads a value: a percent not
followed by another percent or a well-formed parenthesised reference
(InterpolationSyntaxError), a reference to an option absent from the
section mapping (InterpolationMissingOptionError), and substitution nested
beyond MAX_INTERPOLATION_DEPTH = 10 (InterpolationDepthError).  These are
raised by config.items(section), which in loader.py sits outside the try
block, so they escape load_ini_config unwrapped. -/
inductive InterpError where
  | badPercent
  | missingOption
  | tooDeep
deriving Repr, DecidableEq

/-- Lookup of an interpolation variable in the section mapping, after
optionxform (lower-casing) has been applied to the referenced name. -/
def lookupOption (m : List (String × String)) (k : String) : Option String :=
  match m.find? (fun kv => kv.1 == k) with
  | some kv => some kv.2
  | none => none

/-- One interpolation level of BasicInterpolation._interpolate_some: scan
the value left to right; a doubled percent emits a single percent; a
percent followed by a parenthesised nonempty name and the letter s
substitutes the raw value of that option from the section mapping, recursing
through the recur argument when the substituted value itself holds a
percent; any other percent is a syntax error.  The first Nat is a character
budget, always called with at least the length of the list, so the budget
case with a nonempty list is never reached; it makes the scan structurally
recursive. -/
def interpGo (m : List (String × String))
    (recur : List Char → Except InterpError (List Char)) :
    Nat → List Char → Except InterpError (List Char)
  | 0, _ => Except.ok []
  | _ + 1, [] => Except.ok []
  | n + 1, '%' :: '%' :: rest =>
    match interpGo m recur n rest with
    | Except.error e => Except.error e
    | Except.ok t => Except.ok ('%' :: t)
  | n + 1, '%' :: '(' :: rest =>
    (match rest.dropWhile (fun c => !(c == ')')) with
    | ')' :: 's' :: rest4 =>
      (match rest.takeWhile (fun c => !(c == ')')) with
      | [] => Except.error InterpError.badPercent
      | name =>
        match lookupOption m (pyLower (String.mk name)) with
        | none => Except.error InterpError.missingOption
        | some v =>
          if v.data.contains '%' then
            match recur v.data with
            | Except.error e => Except.error e
            | Except.ok t1 =>
              match interpGo m recur n rest4 with
              | Except.error e => Except.error e
              | Except.ok t2 => Except.ok (t1 ++ t2)
          else
            match interpGo m recur n rest4 with
            | Except.error e => Except.error e
            | Except.ok t2 => Except.ok (v.data ++ t2))
    | _ => Except.error InterpError.badPercent)
  | _ + 1, '%' :: _ => Except.error InterpError.badPercent
  | n + 1, c :: rest =>
    match interpGo m recur n rest with
    | Except.error e => Except.error e
    | Except.ok t => Except.ok (c :: t)

/-- BasicInterpolation._interpolate_some with its depth counter: the first
Nat is the remaining depth budget, 10 at the initial depth 1, decremented on
every substitution of a percent-holding value; a call with exhausted budget
is the depth > MAX_INTERPOLATION_DEPTH check raising
InterpolationDepthError. -/
def interpolate_some (m : List (String × String)) :
    Nat → List Char → Except InterpError (List Char)
  | 0, _ => Except.error InterpError.tooDeep
  | dfuel + 1, rest => interpGo m (interpolate_some m dfuel) rest.length rest

/-- BasicInterpolation.before_get: interpolate one raw option value against
the raw mapping of its section. -/
def interpolate (m : List (String × String)) (value : String) :
    Except InterpError String :=
  match interpolate_some m 10 value.data with
  | Except.error e => Except.error e
  | Except.ok cs => Except.ok (String.mk cs)

/-- What can escape load_ini_config: a ConfigError raised by its own checks,
or an interpolation error raised by config.items(section) outside the try
block, escaping unwrapped. -/
inductive LoadFailure where
  | configError (e : ConfigError)
  | interpolationError (e : InterpError)
deriving Repr, DecidableEq

/-- The inner for loop of load_ini_config over config.items(section): each
raw value is interpolated against the raw mapping msec of its section, then
converted; the first interpolation failure aborts the whole call. -/
def convertItems {F : Type} (pint : String → Option Int)
    (pfloat : String → Option F) (msec : List (String × String)) :
    List (String × String) → Except LoadFailure (List (String × ConfigValue F))
  | [] => Except.ok []
  | kv :: rest =>
    match interpolate msec kv.2 with
    | Except.error ie => Except.error (LoadFailure.interpolationError ie)
    | Except.ok v =>
      match convertItems pint pfloat msec rest with
      | Except.error e => Except.error e
      | Except.ok tail => Except.ok ((kv.1, convertValue pint pfloat v) :: tail)

/-- The outer for loop of load_ini_config over config.sections(). -/
def convertSections {F : Type} (pint : String → Option Int)
    (pfloat : String → Option F) :
    List (String × List (String × String)) →
      Except LoadFailure (List (String × List (String × ConfigValue F)))
  | [] => Except.ok []
  | sec :: rest =>
    match convertItems pint pfloat sec.2 sec.2 with
    | Except.error e => Except.error e
    | Except.ok items =>
      match convertSections pint pfloat rest with
      | Except.error e => Except.error e
      | Except.ok tail => Except.ok ((sec.1, items) :: tail)

/-- load_ini_config over an abstracted filesystem and read step: isFile is
the result of Path.is_file, and parsed is the section structure config.read
produced, None when configparser.Error was raised during the read inside
the try block; each section carries the raw (uninterpolated) option items
the merged section mapping would enumerate, with keys already lower-cased
by optionxform at read time.  The conversion loop interpolates every value
as config.items(section) does — outside the try block, so an interpolation
failure escapes as a LoadFailure.interpolationError, not a ConfigError —
and converts the interpolated string through convertValue. -/
def load_ini_config {F : Type} (pint : String → Option Int)
    (pfloat : String → Option F) (isFile : Bool)
    (parsed : Option (List (String × List (String × String)))) :
    Except LoadFailure (List (String × List (String × ConfigValue F))) :=
  if !isFile then
    Except.error (LoadFailure.configError ConfigError.fileNotFound)
  else
    match parsed with
    | none => Except.error (LoadFailure.configError ConfigError.parseFailure)
    | some sections => convertSections pint pfloat sections

/-- Example int parse used by concrete instances in witnesses: digit
strings only. -/
def pintEx : String → Option Int := fun s =>
  match s.data with
  | [] => none
  | cs =>
    if cs.all (fun c => c.isDigit) then
      some (cs.foldl (fun acc c => acc * 10 + ((c.toNat : Int) - 48)) 0)
    else
      none

/-- Example float parse over a trivial carrier, used by witnesses. -/
def pfloatEx : String → Option Unit := fun _ => none

/-- Example float parse that always succeeds, used by witnesses to exercise
the float branch. -/
def pfloatUnit : String → Option Unit := fun _ => some ()

end IniLoader

namespace BridgeSim

lemma process_event_of_processed (oracle : Oracle) (keys : List String)
    (e : RawEvent)
    (h : is_processed keys (eventId e.transactionHash e.logIndex) = true) :
    process_event oracle keys e = Except.ok none := by
  simp [process_event, h]

lemma process_event_invalid (oracle : Oracle) (keys : List String)
    (e : RawEvent)
    (h1 : is_processed keys (eventId e.transactionHash e.logIndex) = false)
    (h2 : allValuesTruthy (buildProcessedData e) = false) :
    process_event oracle keys e = Except.error (ProcErr.eventProcessingError true) := by
  simp [process_event, h1, h2]

lemma process_event_ok_some (oracle : Oracle) (keys : List String)
    (e : RawEvent) (pe : ProcessedEvent)
    (h : process_event oracle keys e = Except.ok (some pe)) :
    pe.tx_hash = e.transactionHash ∧ pe.log_index = e.logIndex ∧
      pe.block_number = e.blockNumber ∧
      is_processed keys (eventId e.transactionHash e.logIndex) = false := by
  by_cases h1 : is_processed keys (eventId e.transactionHash e.logIndex)
  · simp [process_event, h1] at h
  · by_cases h2 : allValuesTruthy (buildProcessedData e)
    · by_cases h3 : truthyOptRat (oracle (buildProcessedData e).token_address)
      · simp [process_event, h1, h2, h3] at h
        subst h
        simp [buildProcessedData, h1]
      · simp [process_event, h1, h2, h3] at h
        subst h
        simp [buildProcessedData, h1]
    · simp [process_event, h1, h2] at h

lemma is_processed_mark_self (keys : List String) (k : String) :
    is_processed (mark_as_processed keys k) k = true := by
  simp [is_processed, mark_as_processed, List.contains_cons]

lemma is_processed_mark_mono (keys : List String) (k k' : String)
    (h : is_processed keys k = true) :
    is_processed (mark_as_processed keys k') k = true := by
  simp [is_processed, mark_as_processed, List.contains_cons]
  simp [is_processed] at h
  exact Or.inr h

end BridgeSim

namespace BridgeSim

/-- Claim C1 counterexample: with checkpoint 50, observed height 100,
confirmations 12 and a fetch that raises BlockNotFound (a reorg at the
boundary), the cycle sets the checkpoint to 88 rather than leaving it at 50,
so the range is not retried next cycle. -/
theorem c1_counterexample :
    (poll_and_process_events 12 oracleNone (some 100) (some 100)
        fetchBlockNotFound
        { lastProcessedBlock := some 50, processedKeys := [] }).state.lastProcessedBlock
      = some 88 ∧
    (some (88 : Int)) ≠ (some (50 : Int)) := by
  constructor
  · decide
  · decide

/-- Claim C1 (amended): when the fetch for the scanned range hits a
BlockNotFound condition, the cycle treats it as an empty result (no event is
dispatched, the dedup keys are unchanged) and no exception escapes (the
cycle is a total function), but the checkpoint is assigned
latestConfirmed = H - confirmations, so the failed range is skipped rather
than retried. -/
theorem c1_range_unavailable (confirmations : Int) (oracle : Oracle)
    (h1 : Option Int) (H : Int) (fetch : Int → Int → FetchOutcome)
    (st : ListenerState)
    (hsb : get_start_block st.lastProcessedBlock h1 confirmations ≠ -1)
    (hle : get_start_block st.lastProcessedBlock h1 confirmations ≤ H - confirmations)
    (hf : fetch (get_start_block st.lastProcessedBlock h1 confirmations)
        (H - confirmations) = FetchOutcome.blockNotFound) :
    poll_and_process_events confirmations oracle h1 (some H) fetch st =
      { state := { lastProcessedBlock := some (H - confirmations)
                   processedKeys := st.processedKeys }
        dispatched := []
        fetchedRange := some (get_start_block st.lastProcessedBlock h1 confirmations,
          H - confirmations) } := by
  unfold poll_and_process_events
  rw [if_neg hsb]
  simp only []
  rw [if_neg (not_lt.mpr hle), hf]
  simp [get_events, sortEvents, processBatch]

/-- Witness for c1_range_unavailable at a concrete input. -/
theorem c1_range_unavailable_witness :
    poll_and_process_events 12 oracleNone (some 100) (some 100)
        fetchBlockNotFound
        { lastProcessedBlock := some 50, processedKeys := [] } =
      { state := { lastProcessedBlock := some 88, processedKeys := [] }
        dispatched := []
        fetchedRange := some (51, 88) } := by
  have h := c1_range_unavailable 12 oracleNone (some 100) 100
    fetchBlockNotFound { lastProcessedBlock := some 50, processedKeys := [] }
    (by decide) (by decide) (by decide)
  simpa using h

/-- Claim C4: the upper bound of every fetched range equals (hence never
exceeds) latestConfirmed = H - confirmations, where H is the height observed
by the get_latest_block_number call of the cycle that computes the bound. -/
theorem c4_to_bounded (confirmations : Int) (oracle : Oracle)
    (h1 : Option Int) (H : Int) (fetch : Int → Int → FetchOutcome)
    (st : ListenerState) (f t : Int)
    (h : (poll_and_process_events confirmations oracle h1 (some H) fetch
        st).fetchedRange = some (f, t)) :
    t ≤ H - confirmations := by
  simp only [poll_and_process_events] at h
  split at h
  · simp at h
  · split at h
    · simp at h
    · simp at h
      omega

/-- Witness for c4_to_bounded: with height 100 and confirmations 12 the
fetched range is (51, 88) and its upper bound is at most 88. -/
theorem c4_to_bounded_witness :
    (poll_and_process_events 12 oracleNone (some 100) (some 100) fetchEmpty
        { lastProcessedBlock := some 50, processedKeys := [] }).fetchedRange
      = some (51, 88) ∧ (88 : Int) ≤ 100 - 12 := by
  refine ⟨by decide, ?_⟩
  exact c4_to_bounded 12 oracleNone (some 100) 100 fetchEmpty
    { lastProcessedBlock := some 50, processedKeys := [] } 51 88 (by decide)

end BridgeSim

namespace BridgeSim

/-- Claim C5 counterexample: with the checkpoint holding exactly 0, height
100 and confirmations 12, the fetched range is (78, 88), not the
(checkpoint + 1, 88) = (1, 88) the claim prescribes for a set checkpoint. -/
theorem c5_counterexample :
    (poll_and_process_events 12 oracleNone (some 100) (some 100) fetchEmpty
        { lastProcessedBlock := some 0, processedKeys := [] }).fetchedRange
      = some (78, 88) ∧
    (some ((78 : Int), (88 : Int))) ≠ (some ((1 : Int), (88 : Int))) := by
  constructor
  · decide
  · decide

/-- Claim C5 (amended): the scanned range is computed as the claim states
for an unset checkpoint and for every nonzero checkpoint, but a checkpoint
holding exactly 0 is falsy in Python and takes the cold-start branch
H - C - 10 instead of checkpoint + 1; concretely, with no checkpoint,
H = 100 and confirmations 12 the fetched range is (78, 88). -/
theorem c5_range_formula (H C b : Int) (h1 : Option Int) (hb : b ≠ 0) :
    get_start_block none (some H) C = H - C - 10 ∧
    get_start_block (some b) h1 C = b + 1 ∧
    get_start_block (some 0) (some H) C = H - C - 10 ∧
    (∀ (oracle : Oracle) (fetch : Int → Int → FetchOutcome),
      (poll_and_process_events 12 oracle (some 100) (some 100) fetch
          { lastProcessedBlock := none, processedKeys := [] }).fetchedRange
        = some (78, 88)) := by
  refine ⟨rfl, ?_, rfl, ?_⟩
  · simp [get_start_block, truthyOptInt, truthyInt, hb]
  · intro oracle fetch
    rfl

/-- Witness for c5_range_formula at a concrete nonzero checkpoint. -/
theorem c5_range_formula_witness :
    get_start_block (some 88) (some 100) 12 = 89 ∧
    (poll_and_process_events 12 oracleNone (some 100) (some 100) fetchEmpty
        { lastProcessedBlock := none, processedKeys := [] }).fetchedRange
      = some (78, 88) := by
  have h := c5_range_formula 100 12 88 (some 100) (by decide)
  exact ⟨h.2.1, h.2.2.2 oracleNone fetchEmpty⟩

/-- Claim C7 counterexample: confirmations 12; a first cycle at height 12
commits checkpoint 0; a second cycle at the lower height 5 then assigns
checkpoint -7, a strictly smaller value, because the zero checkpoint is
falsy and the cold-start branch runs unguarded against regression. -/
theorem c7_counterexample :
    (poll_and_process_events 12 oracleNone (some 12) (some 12) fetchEmpty
        { lastProcessedBlock := none, processedKeys := [] }).state.lastProcessedBlock
      = some 0 ∧
    (poll_and_process_events 12 oracleNone (some 5) (some 5) fetchEmpty
        { lastProcessedBlock := some 0, processedKeys := [] }).state.lastProcessedBlock
      = some (-7) ∧
    ¬ ((0 : Int) < -7) := by
  refine ⟨by decide, by decide, by decide⟩

/-- Claim C7 (amended): once the checkpoint holds a nonzero value, a cycle
either leaves it untouched or assigns a strictly greater value, even when
the reported height decreases; the monotonicity claim fails only through a
checkpoint of exactly 0, which is treated as unset. -/
theorem c7_monotone_nonzero (confirmations : Int) (oracle : Oracle)
    (h1 h2 : Option Int) (fetch : Int → Int → FetchOutcome)
    (st : ListenerState) (b : Int)
    (hset : st.lastProcessedBlock = some b) (hb : b ≠ 0) :
    (poll_and_process_events confirmations oracle h1 h2 fetch
        st).state.lastProcessedBlock = some b ∨
    (∃ b', (poll_and_process_events confirmations oracle h1 h2 fetch
        st).state.lastProcessedBlock = some b' ∧ b < b') := by
  have hsb : get_start_block st.lastProcessedBlock h1 confirmations = b + 1 := by
    simp [get_start_block, hset, truthyOptInt, truthyInt, hb]
  simp only [poll_and_process_events, hsb]
  split
  · exact Or.inl hset
  · cases h2 with
    | none => exact Or.inl hset
    | some h =>
      simp only []
      split
      · exact Or.inl hset
      · right
        refine ⟨h - confirmations, by simp, ?_⟩
        omega

/-- Witness for c7_monotone_nonzero: a cycle from checkpoint 50 at height
100 assigns 88, a strictly greater value. -/
theorem c7_monotone_nonzero_witness :
    (poll_and_process_events 12 oracleNone (some 100) (some 100) fetchEmpty
        { lastProcessedBlock := some 50, processedKeys := [] }).state.lastProcessedBlock
      = some 50 ∨
    (∃ b', (poll_and_process_events 12 oracleNone (some 100) (some 100)
        fetchEmpty
        { lastProcessedBlock := some 50, processedKeys := [] }).state.lastProcessedBlock
      = some b' ∧ 50 < b') :=
  c7_monotone_nonzero 12 oracleNone (some 100) (some 100) fetchEmpty
    { lastProcessedBlock := some 50, processedKeys := [] } 50 rfl (by decide)

/-- Claim C9: a checkpoint holding exactly 0 is falsy, so _get_start_block
takes the cold-start branch and returns H - confirmations - 10 instead of
checkpoint + 1 = 1; for every positive checkpoint it returns
checkpoint + 1. -/
theorem c9_zero_checkpoint (H C b : Int) (h1 : Option Int) (hb : 0 < b) :
    get_start_block (some 0) (some H) C = H - C - 10 ∧
    get_start_block (some b) h1 C = b + 1 := by
  refine ⟨rfl, ?_⟩
  simp [get_start_block, truthyOptInt, truthyInt]
  omega

/-- Witness for c9_zero_checkpoint at checkpoint 88, height 100,
confirmations 12. -/
theorem c9_zero_checkpoint_witness :
    get_start_block (some 0) (some 100) 12 = 100 - 12 - 10 ∧
    get_start_block (some 88) (some 100) 12 = 89 := by
  have h := c9_zero_checkpoint 100 12 88 (some 100) (by decide)
  exact ⟨h.1, h.2⟩

end BridgeSim

namespace BridgeSim

lemma processBatch_cons_some (oracle : Oracle) (st : ListenerState)
    (e : RawEvent) (rest : List RawEvent) (pe : ProcessedEvent)
    (hpe : process_event oracle st.processedKeys e = Except.ok (some pe)) :
    processBatch oracle st (e :: rest) =
      ((processBatch oracle
          { st with processedKeys := (mark_as_processed st.processedKeys
              (eventId pe.tx_hash pe.log_index)) } rest).1,
        pe :: (processBatch oracle
          { st with processedKeys := (mark_as_processed st.processedKeys
              (eventId pe.tx_hash pe.log_index)) } rest).2) := by
  simp [processBatch, hpe]

lemma processBatch_cons_skip (oracle : Oracle) (st : ListenerState)
    (e : RawEvent) (rest : List RawEvent)
    (h : process_event oracle st.processedKeys e = Except.ok none ∨
      ∃ err, process_event oracle st.processedKeys e = Except.error err) :
    processBatch oracle st (e :: rest) = processBatch oracle st rest := by
  rcases h with hc | ⟨err, hc⟩ <;> simp [processBatch, hc]

lemma processBatch_keys_mono (oracle : Oracle) (st : ListenerState)
    (evs : List RawEvent) (k : String)
    (h : is_processed st.processedKeys k = true) :
    is_processed (processBatch oracle st evs).1.processedKeys k = true := by
  induction evs generalizing st with
  | nil => simpa [processBatch]
  | cons e rest ih =>
    cases hpe : process_event oracle st.processedKeys e with
    | ok o =>
      cases o with
      | none =>
        rw [processBatch_cons_skip oracle st e rest (Or.inl hpe)]
        exact ih st h
      | some pe =>
        rw [processBatch_cons_some oracle st e rest pe hpe]
        exact ih _ (is_processed_mark_mono _ _ _ h)
    | error err =>
      rw [processBatch_cons_skip oracle st e rest (Or.inr ⟨err, hpe⟩)]
      exact ih st h

lemma countKey_cons (k : String) (pe : ProcessedEvent) (l : List ProcessedEvent) :
    countKey k (pe :: l) =
      (if (eventId pe.tx_hash pe.log_index == k) = true then 1 else 0) +
        countKey k l := by
  by_cases hc : (eventId pe.tx_hash pe.log_index == k) = true <;>
    simp [countKey, List.filter_cons, hc, Nat.add_comm]

lemma processBatch_count_zero (oracle : Oracle) (st : ListenerState)
    (evs : List RawEvent) (k : String)
    (h : is_processed st.processedKeys k = true) :
    countKey k (processBatch oracle st evs).2 = 0 := by
  induction evs generalizing st with
  | nil => simp [processBatch, countKey]
  | cons e rest ih =>
    cases hpe : process_event oracle st.processedKeys e with
    | ok o =>
      cases o with
      | none =>
        rw [processBatch_cons_skip oracle st e rest (Or.inl hpe)]
        exact ih st h
      | some pe =>
        rw [processBatch_cons_some oracle st e rest pe hpe]
        have hfields := process_event_ok_some oracle st.processedKeys e pe hpe
        have hkey : eventId pe.tx_hash pe.log_index =
            eventId e.transactionHash e.logIndex := by
          rw [hfields.1, hfields.2.1]
        have hne : (eventId pe.tx_hash pe.log_index == k) = false := by
          rw [beq_eq_false_iff_ne]
          intro hx
          have hf := hfields.2.2.2
          rw [← hkey, hx, h] at hf
          simp at hf
        rw [countKey_cons, hne]
        simpa using ih _ (is_processed_mark_mono _ _ _ h)
    | error err =>
      rw [processBatch_cons_skip oracle st e rest (Or.inr ⟨err, hpe⟩)]
      exact ih st h

lemma processBatch_count_le (oracle : Oracle) (st : ListenerState)
    (evs : List RawEvent) (k : String) :
    countKey k (processBatch oracle st evs).2 ≤ 1 ∧
    (1 ≤ countKey k (processBatch oracle st evs).2 →
      is_processed (processBatch oracle st evs).1.processedKeys k = true) := by
  induction evs generalizing st with
  | nil => simp [processBatch, countKey]
  | cons e rest ih =>
    cases hpe : process_event oracle st.processedKeys e with
    | ok o =>
      cases o with
      | none =>
        rw [processBatch_cons_skip oracle st e rest (Or.inl hpe)]
        exact ih st
      | some pe =>
        rw [processBatch_cons_some oracle st e rest pe hpe]
        by_cases hk : (eventId pe.tx_hash pe.log_index == k) = true
        · have hkeq : eventId pe.tx_hash pe.log_index = k := eq_of_beq hk
          have hmem : is_processed (mark_as_processed st.processedKeys
              (eventId pe.tx_hash pe.log_index)) k = true := by
            rw [← hkeq]
            exact is_processed_mark_self _ _
          have hz := processBatch_count_zero oracle
            { st with processedKeys := (mark_as_processed st.processedKeys
                (eventId pe.tx_hash pe.log_index)) } rest k hmem
          constructor
          · rw [countKey_cons, if_pos hk]
            omega
          · intro _
            exact processBatch_keys_mono oracle _ rest k hmem
        · have hkf : (eventId pe.tx_hash pe.log_index == k) = false := by
            simpa using hk
          rw [countKey_cons, hkf]
          simpa using ih _
    | error err =>
      rw [processBatch_cons_skip oracle st e rest (Or.inr ⟨err, hpe⟩)]
      exact ih st

/-- Claim C2: across two deliveries of batches to the reconciliation loop
(modelling two overlapping scans), at most one dispatched event carries any
given EventKey, and re-delivering an event whose key has been marked
processed is a no-op of the replay-protection check. -/
theorem c2_actuator_at_most_once (oracle : Oracle) (st : ListenerState)
    (evs1 evs2 : List RawEvent) (k : String) :
    countKey k (processBatch oracle st evs1).2 +
      countKey k (processBatch oracle (processBatch oracle st evs1).1 evs2).2 ≤ 1 ∧
    (∀ (keys : List String) (e : RawEvent),
      process_event oracle
        (mark_as_processed keys (eventId e.transactionHash e.logIndex)) e =
        Except.ok none) := by
  constructor
  · have h1 := processBatch_count_le oracle st evs1 k
    rcases Nat.lt_or_ge (countKey k (processBatch oracle st evs1).2) 1 with hlt | hge
    · have h2 := (processBatch_count_le oracle (processBatch oracle st evs1).1 evs2 k).1
      omega
    · have hz := processBatch_count_zero oracle (processBatch oracle st evs1).1
        evs2 k (h1.2 hge)
      omega
  · intro keys e
    exact process_event_of_processed _ _ _ (is_processed_mark_self _ _)

end BridgeSim

namespace BridgeSim

lemma process_event_invalid_cases (oracle : Oracle) (keys : List String)
    (e : RawEvent) (h : requiredArgsTruthy (buildProcessedData e) = false) :
    process_event oracle keys e = Except.ok none ∨
      process_event oracle keys e =
        Except.error (ProcErr.eventProcessingError true) := by
  by_cases hp : is_processed keys (eventId e.transactionHash e.logIndex)
  · exact Or.inl (process_event_of_processed _ _ _ hp)
  · refine Or.inr (process_event_invalid _ _ _ ?_ ?_)
    · simpa using hp
    · simp [allValuesTruthy, h]

lemma processBatch_invalid_middle (oracle : Oracle) (e : RawEvent)
    (l2 : List RawEvent)
    (h : requiredArgsTruthy (buildProcessedData e) = false) :
    ∀ (l1 : List RawEvent) (st : ListenerState),
      processBatch oracle st (l1 ++ e :: l2) = processBatch oracle st (l1 ++ l2) := by
  intro l1
  induction l1 with
  | nil =>
    intro st
    rcases process_event_invalid_cases oracle st.processedKeys e h with hc | hc
    · simpa using processBatch_cons_skip oracle st e l2 (Or.inl hc)
    · simpa using processBatch_cons_skip oracle st e l2 (Or.inr ⟨_, hc⟩)
  | cons x l1 ih =>
    intro st
    rw [List.cons_append, List.cons_append]
    cases hpe : process_event oracle st.processedKeys x with
    | ok o =>
      cases o with
      | none =>
        rw [processBatch_cons_skip oracle st x (l1 ++ e :: l2) (Or.inl hpe),
          processBatch_cons_skip oracle st x (l1 ++ l2) (Or.inl hpe)]
        exact ih st
      | some pe =>
        rw [processBatch_cons_some oracle st x (l1 ++ e :: l2) pe hpe,
          processBatch_cons_some oracle st x (l1 ++ l2) pe hpe, ih _]
    | error err =>
      rw [processBatch_cons_skip oracle st x (l1 ++ e :: l2) (Or.inr ⟨err, hpe⟩),
        processBatch_cons_skip oracle st x (l1 ++ l2) (Or.inr ⟨err, hpe⟩)]
      exact ih st

/-- Claim C6: an event whose required named arguments include a missing or
zero-equivalent value contributes nothing to the batch (the remaining events
are processed, dispatched and marked exactly as if it were absent), and when
its key is not already marked it fails with the InvalidEventError of the
validation step (re-raised by the blanket handler as EventProcessingError,
with the invalid-event cause recorded by the flag). -/
theorem c6_invalid_event_isolated (oracle : Oracle) (st : ListenerState)
    (l1 l2 : List RawEvent) (e : RawEvent)
    (h : requiredArgsTruthy (buildProcessedData e) = false) :
    processBatch oracle st (l1 ++ e :: l2) = processBatch oracle st (l1 ++ l2) ∧
    (is_processed st.processedKeys (eventId e.transactionHash e.logIndex) = false →
      process_event oracle st.processedKeys e =
        Except.error (ProcErr.eventProcessingError true)) := by
  refine ⟨processBatch_invalid_middle oracle e l2 h l1 st, fun hp => ?_⟩
  exact process_event_invalid _ _ _ hp (by simp [allValuesTruthy, h])

/-- Witness for c6_invalid_event_isolated: a batch holding an event without
recipient and a valid event behaves like the batch of the valid event alone,
and the invalid event fails with the invalid-event error. -/
theorem c6_invalid_event_isolated_witness :
    processBatch oracleNone { lastProcessedBlock := none, processedKeys := [] }
        [sampleMissingRecipient, sampleEvent "0xaaa" 2 10] =
      processBatch oracleNone { lastProcessedBlock := none, processedKeys := [] }
        [sampleEvent "0xaaa" 2 10] ∧
    process_event oracleNone [] sampleMissingRecipient =
      Except.error (ProcErr.eventProcessingError true) := by
  have h := c6_invalid_event_isolated oracleNone
    { lastProcessedBlock := none, processedKeys := [] }
    [] [sampleEvent "0xaaa" 2 10] sampleMissingRecipient (by decide)
  exact ⟨by simpa using h.1, by simpa using h.2 (by decide)⟩

/-- Claim C8: when the oracle request fails (None), an otherwise valid and
unseen event is still returned by process_event without the enrichment
field, is still dispatched, and its key is still marked processed. -/
theorem c8_oracle_failure_independent (oracle : Oracle) (st : ListenerState)
    (e : RawEvent)
    (hp : is_processed st.processedKeys (eventId e.transactionHash e.logIndex) = false)
    (hv : allValuesTruthy (buildProcessedData e) = true)
    (ho : oracle e.token = none) :
    process_event oracle st.processedKeys e =
      Except.ok (some (buildProcessedData e)) ∧
    (buildProcessedData e).amount_usd_estimate = none ∧
    processBatch oracle st [e] =
      ({ st with processedKeys := (mark_as_processed st.processedKeys
          (eventId e.transactionHash e.logIndex)) }, [buildProcessedData e]) := by
  have htok : (buildProcessedData e).token_address = e.token := rfl
  have hpe : process_event oracle st.processedKeys e =
      Except.ok (some (buildProcessedData e)) := by
    simp [process_event, hp, hv, htok, ho, truthyOptRat]
  refine ⟨hpe, rfl, ?_⟩
  rw [processBatch_cons_some oracle st e [] (buildProcessedData e) hpe]
  simp [processBatch]
  rfl

/-- Witness for c8_oracle_failure_independent on a concrete valid event and
the all-failing oracle. -/
theorem c8_oracle_failure_independent_witness :
    process_event oracleNone [] (sampleEvent "0xaaa" 2 10) =
      Except.ok (some (buildProcessedData (sampleEvent "0xaaa" 2 10))) ∧
    (buildProcessedData (sampleEvent "0xaaa" 2 10)).amount_usd_estimate = none ∧
    processBatch oracleNone { lastProcessedBlock := none, processedKeys := [] }
        [sampleEvent "0xaaa" 2 10] =
      ({ lastProcessedBlock := none,
         processedKeys := (mark_as_processed []
           (eventId "0xaaa" 2)) }, [buildProcessedData (sampleEvent "0xaaa" 2 10)]) := by
  have h := c8_oracle_failure_independent oracleNone
    { lastProcessedBlock := none, processedKeys := [] }
    (sampleEvent "0xaaa" 2 10) (by decide) (by decide) rfl
  exact ⟨h.1, h.2.1, h.2.2⟩

/-- Claim C3 evaluation at the failing input: for the three events of the
ordering example, each with every named argument present and nonzero, the
cycle dispatches only (block 10, log 2); the two events with log index 0 are
rejected as invalid because all(processed_data.values()) treats the integer
0 as missing, so the claimed dispatch order (9,0), (10,0), (10,2) is not
produced. -/
theorem c3_log_index_zero_rejected :
    ((poll_and_process_events 12 oracleNone (some 22) (some 22)
        fetchOrderingExample
        { lastProcessedBlock := some 8, processedKeys := [] }).dispatched.map
      pairKeyP) = [((10 : Int), (2 : Nat))] ∧
    [((10 : Int), (2 : Nat))] ≠
      [((9 : Int), (0 : Nat)), ((10 : Int), (0 : Nat)), ((10 : Int), (2 : Nat))] ∧
    process_event oracleNone [] (sampleEvent "0xbbb" 0 9) =
      Except.error (ProcErr.eventProcessingError true) := by
  refine ⟨by decide, by decide, rfl⟩

end BridgeSim

namespace IniLoader

lemma convertItems_error_interp {F : Type} (pint : String → Option Int)
    (pfloat : String → Option F) (msec : List (String × String))
    (items : List (String × String)) (e : LoadFailure)
    (h : convertItems pint pfloat msec items = Except.error e) :
    ∃ ie, e = LoadFailure.interpolationError ie := by
  induction items with
  | nil => simp [convertItems] at h
  | cons kv rest ih =>
    cases hi : interpolate msec kv.2 with
    | error ie =>
      simp [convertItems, hi] at h
      exact ⟨ie, h.symm⟩
    | ok v =>
      cases hr : convertItems pint pfloat msec rest with
      | error e2 =>
        simp [convertItems, hi, hr] at h
        subst h
        exact ih hr
      | ok tail =>
        simp [convertItems, hi, hr] at h

lemma convertSections_error_interp {F : Type} (pint : String → Option Int)
    (pfloat : String → Option F)
    (secs : List (String × List (String × String))) (e : LoadFailure)
    (h : convertSections pint pfloat secs = Except.error e) :
    ∃ ie, e = LoadFailure.interpolationError ie := by
  induction secs with
  | nil => simp [convertSections] at h
  | cons sec rest ih =>
    cases hi : convertItems pint pfloat (F := F) sec.2 sec.2 with
    | error e2 =>
      simp [convertSections, hi] at h
      subst h
      exact convertItems_error_interp pint pfloat sec.2 sec.2 _ hi
    | ok items =>
      cases hr : convertSections pint pfloat rest with
      | error e2 =>
        simp [convertSections, hi, hr] at h
        subst h
        exact ih hr
      | ok tail =>
        simp [convertSections, hi, hr] at h

/-- Claim C10 counterexample: with an existing file that config.read parses,
the raw value of one option ending in a bare percent makes the items loop
raise an unwrapped interpolation error, which is not a ConfigError although
the claim allows only ConfigError failures; and a doubled percent is
rewritten to a single percent before conversion, so the stored value is not
the original option string. -/
theorem c10_counterexample :
    load_ini_config pintEx pfloatEx true (some [("s", [("k", "50%")])]) =
      Except.error (LoadFailure.interpolationError InterpError.badPercent) ∧
    LoadFailure.interpolationError InterpError.badPercent ≠
      LoadFailure.configError ConfigError.fileNotFound ∧
    LoadFailure.interpolationError InterpError.badPercent ≠
      LoadFailure.configError ConfigError.parseFailure ∧
    load_ini_config pintEx pfloatEx true (some [("s", [("k", "100%%")])]) =
      Except.ok [("s", [("k", ConfigValue.strV "100%")])] ∧
    ConfigValue.strV "100%" ≠ (ConfigValue.strV "100%%" : ConfigValue Unit) := by
  refine ⟨by decide, by decide, by decide, by decide, by decide⟩

/-- Claim C10 (amended): load_ini_config fails with ConfigError exactly when
the path is not an existing file or config.read raises while parsing; an
interpolation failure raised while the loop reads option values escapes
unwrapped as an interpolation error instead of a ConfigError; otherwise
every option value is first interpolated (a doubled percent becomes a
single percent, a parenthesised reference is substituted) and the
interpolated string is converted with the fixed precedence:
case-insensitive true/yes/on to True, false/no/off to False, then a
successful int parse, then a successful float parse, and otherwise the
interpolated string itself. -/
theorem c10_load_and_convert {F : Type} (pint : String → Option Int)
    (pfloat : String → Option F) (isFile : Bool)
    (parsed : Option (List (String × List (String × String))))
    (v : String) (n : Int) (x : F) (sname k raw w : String)
    (ie : InterpError) :
    ((∃ ce, load_ini_config pint pfloat isFile parsed =
        Except.error (LoadFailure.configError ce)) ↔
      (isFile = false ∨ parsed = none)) ∧
    (interpolate [(k, raw)] raw = Except.ok w →
      load_ini_config pint pfloat true (some [(sname, [(k, raw)])]) =
        Except.ok [(sname, [(k, convertValue pint pfloat w)])]) ∧
    (interpolate [(k, raw)] raw = Except.error ie →
      load_ini_config pint pfloat true (some [(sname, [(k, raw)])]) =
        Except.error (LoadFailure.interpolationError ie)) ∧
    ((pyLower v == "true" || pyLower v == "yes" || pyLower v == "on") = true →
      convertValue pint pfloat v = ConfigValue.boolV true) ∧
    ((pyLower v == "true" || pyLower v == "yes" || pyLower v == "on") = false →
      (pyLower v == "false" || pyLower v == "no" || pyLower v == "off") = true →
      convertValue pint pfloat v = ConfigValue.boolV false) ∧
    ((pyLower v == "true" || pyLower v == "yes" || pyLower v == "on") = false →
      (pyLower v == "false" || pyLower v == "no" || pyLower v == "off") = false →
      pint v = some n →
      convertValue pint pfloat v = ConfigValue.intV n) ∧
    ((pyLower v == "true" || pyLower v == "yes" || pyLower v == "on") = false →
      (pyLower v == "false" || pyLower v == "no" || pyLower v == "off") = false →
      pint v = none → pfloat v = some x →
      convertValue pint pfloat v = ConfigValue.floatV x) ∧
    ((pyLower v == "true" || pyLower v == "yes" || pyLower v == "on") = false →
      (pyLower v == "false" || pyLower v == "no" || pyLower v == "off") = false →
      pint v = none → pfloat v = none →
      convertValue pint pfloat v = ConfigValue.strV v) := by
  refine ⟨?_, ?_, ?_, ?_, ?_, ?_, ?_, ?_⟩
  · constructor
    · rintro ⟨ce, hce⟩
      by_contra hcon
      push_neg at hcon
      obtain ⟨hif, hp⟩ := hcon
      have hift : isFile = true := by
        cases isFile
        · exact absurd rfl hif
        · rfl
      obtain ⟨secs, hsecs⟩ : ∃ s, parsed = some s := by
        cases parsed with
        | none => exact absurd rfl hp
        | some s => exact ⟨s, rfl⟩
      rw [hift, hsecs] at hce
      simp [load_ini_config] at hce
      obtain ⟨ie2, hie2⟩ := convertSections_error_interp pint pfloat secs _ hce
      simp at hie2
    · rintro (hif | hp)
      · exact ⟨ConfigError.fileNotFound, by rw [hif]; rfl⟩
      · cases hIF : isFile
        · exact ⟨ConfigError.fileNotFound, rfl⟩
        · exact ⟨ConfigError.parseFailure, by rw [hp]; rfl⟩
  · intro hw
    simp [load_ini_config, convertSections, convertItems, hw]
  · intro hie
    simp [load_ini_config, convertSections, convertItems, hie]
  · intro h1
    simp [convertValue, h1]
  · intro h1 h2
    simp [convertValue, h1, h2]
  · intro h1 h2 h3
    simp [convertValue, h1, h2, h3]
  · intro h1 h2 h3 h4
    simp [convertValue, h1, h2, h3, h4]
  · intro h1 h2 h3 h4
    simp [convertValue, h1, h2, h3, h4]

/-- Witness for c10_load_and_convert: a concrete failing load, a concrete
converted section where the value survives interpolation unchanged, a
concrete unwrapped interpolation failure, and concrete conversions through
every precedence branch. -/
theorem c10_load_and_convert_witness :
    (∃ ce, load_ini_config pintEx pfloatEx false
        (none : Option (List (String × List (String × String)))) =
      Except.error (LoadFailure.configError ce)) ∧
    load_ini_config pintEx pfloatUnit true (some [("s", [("k", "on")])]) =
      Except.ok [("s", [("k", convertValue pintEx pfloatUnit "on")])] ∧
    load_ini_config pintEx pfloatUnit true (some [("s", [("k", "%(a)s")])]) =
      Except.error (LoadFailure.interpolationError InterpError.missingOption) ∧
    convertValue pintEx pfloatUnit "Yes" = ConfigValue.boolV true ∧
    convertValue pintEx pfloatUnit "OFF" = ConfigValue.boolV false ∧
    convertValue pintEx pfloatUnit "42" = ConfigValue.intV 42 ∧
    convertValue pintEx pfloatUnit "4.5" = ConfigValue.floatV () ∧
    convertValue pintEx pfloatEx "hello" = ConfigValue.strV "hello" := by
  have hA := c10_load_and_convert pintEx pfloatEx false none "Yes" 0 ()
    "s" "k" "on" "on" InterpError.missingOption
  have hB := c10_load_and_convert pintEx pfloatUnit true
    (some [("s", [("k", "on")])]) "Yes" 0 () "s" "k" "on" "on"
    InterpError.missingOption
  have hC := c10_load_and_convert pintEx pfloatUnit true
    (some [("s", [("k", "%(a)s")])]) "OFF" 0 () "s" "k" "%(a)s" "w"
    InterpError.missingOption
  have hD := c10_load_and_convert pintEx pfloatUnit false none "42" 42 ()
    "s" "k" "z" "z" InterpError.missingOption
  have hE := c10_load_and_convert pintEx pfloatUnit false none "4.5" 0 ()
    "s" "k" "z" "z" InterpError.missingOption
  have hF := c10_load_and_convert pintEx pfloatEx false none "hello" 0 ()
    "s" "k" "z" "z" InterpError.missingOption
  refine ⟨hA.1.mpr (Or.inl rfl), hB.2.1 (by decide), hC.2.2.1 (by decide),
    hA.2.2.2.1 (by decide), hC.2.2.2.2.1 (by decide) (by decide),
    hD.2.2.2.2.2.1 (by decide) (by decide) (by decide),
    hE.2.2.2.2.2.2.1 (by decide) (by decide) (by decide) (by decide),
    hF.2.2.2.2.2.2.2 (by decide) (by decide) (by decide) (by decide)⟩

end IniLoader
